import Mathlib

/-!
# skiboot: the hdata test harness and the Witherspoon platform

A shallow embedding of

* `hdata/test/hdata_to_dt.c`: `ntuple_addr` and `main`,
* `platforms/astbmc/witherspoon.c`: the two probes, the shared-slot
  activation and the pre-PCI fixup,

followed by the properties established about them.

Conventions.  `uint64_t`, `unsigned long` and pointers are natural numbers
below `2 ^ 64` with explicit reduction modulo `2 ^ 64` (LP64 host); `off_t`
and `int` are integers.  Side effects are recorded as lists of events in
program order.  A read through a pointer is recorded as an event; whether the
read faults is outside the model.
-/

namespace Skiboot

/-! ## Machine arithmetic -/

/-- Modulus of `uint64_t`, `unsigned long` and pointer arithmetic. -/
def U64 : Nat := 18446744073709551616

/-- Conversion of a signed value to `uint64_t`. -/
def to_u64 (x : Int) : Nat := (x % (U64 : Int)).toNat

/-- Subtraction of two `uint64_t` values. -/
def u64_sub (a b : Nat) : Nat := (a + U64 - b % U64) % U64

/-- Addition of two `uint64_t` values. -/
def u64_add (a b : Nat) : Nat := (a + b) % U64

/-- Pointer plus byte offset (`void *` arithmetic). -/
def ptr_add (p off : Nat) : Nat := (p + off) % U64

/-- The null pointer. -/
def NULL : Nat := 0

/-! ## Big-endian fields -/

/-- A `__be64` field as it lies in memory: eight bytes, `b0` at the lowest
address. -/
structure be64 where
  b0 : Fin 256
  b1 : Fin 256
  b2 : Fin 256
  b3 : Fin 256
  b4 : Fin 256
  b5 : Fin 256
  b6 : Fin 256
  b7 : Fin 256
deriving DecidableEq, Repr

/-- A `__be32` field as it lies in memory. -/
structure be32 where
  b0 : Fin 256
  b1 : Fin 256
  b2 : Fin 256
  b3 : Fin 256
deriving DecidableEq, Repr

/-- Modelled from the spec: `be64_to_cpu` (the endian header is not part of
the sources at hand); the spec fixes directory fields as network byte order,
so the result is the big-endian value of the eight stored bytes on every
host. -/
def be64_to_cpu (x : be64) : Nat :=
  x.b0.val * 2 ^ 56 + x.b1.val * 2 ^ 48 + x.b2.val * 2 ^ 40 + x.b3.val * 2 ^ 32 +
  x.b4.val * 2 ^ 24 + x.b5.val * 2 ^ 16 + x.b6.val * 2 ^ 8 + x.b7.val

/-- Modelled from the spec: `be32_to_cpu`, the big-endian value of the four
stored bytes. -/
def be32_to_cpu (x : be32) : Nat :=
  x.b0.val * 2 ^ 24 + x.b1.val * 2 ^ 16 + x.b2.val * 2 ^ 8 + x.b3.val

/-- The value the host sees when it loads a `__be64` field without
conversion, as in `n->addr == 0` and `!t->addr`: the little-endian reading of
the bytes on a little-endian host, the big-endian reading otherwise. -/
def raw64 (host_le : Bool) (x : be64) : Nat :=
  if host_le then
    x.b0.val + x.b1.val * 2 ^ 8 + x.b2.val * 2 ^ 16 + x.b3.val * 2 ^ 24 +
    x.b4.val * 2 ^ 32 + x.b5.val * 2 ^ 40 + x.b6.val * 2 ^ 48 + x.b7.val * 2 ^ 56
  else be64_to_cpu x

/-- The field whose stored bytes are the big-endian encoding of `v`
(`cpu_to_be64`), used to write down concrete tuples. -/
def cpu_to_be64 (v : Nat) : be64 :=
  { b0 := Fin.ofNat (v / 2 ^ 56), b1 := Fin.ofNat (v / 2 ^ 48), b2 := Fin.ofNat (v / 2 ^ 40),
    b3 := Fin.ofNat (v / 2 ^ 32), b4 := Fin.ofNat (v / 2 ^ 24), b5 := Fin.ofNat (v / 2 ^ 16),
    b6 := Fin.ofNat (v / 2 ^ 8), b7 := Fin.ofNat v }

/-- Same for `__be32` (`cpu_to_be32`). -/
def cpu_to_be32 (v : Nat) : be32 :=
  { b0 := Fin.ofNat (v / 2 ^ 24), b1 := Fin.ofNat (v / 2 ^ 16), b2 := Fin.ofNat (v / 2 ^ 8),
    b3 := Fin.ofNat v }

/-! ## `hdata/test/hdata_to_dt.c`: `ntuple_addr` -/

/-- The structure `struct spira_ntuple`: only the `addr` field is used by the
harness. -/
structure spira_ntuple where
  addr : be64
deriving DecidableEq, Repr

/-- The file-scope variables `spira_heap`, `spira_heap_size` and `base_addr`,
and the byte order of the host running the harness. -/
structure Globals where
  host_le : Bool
  spira_heap : Nat
  spira_heap_size : Int
  base_addr : Nat

/-- The pointer and the `uint64_t` hold values of their C types.  The heap
size enters the arithmetic of `ntuple_addr` converted to `uint64_t`, as
`to_u64 g.spira_heap_size`, which is the size itself when it is not
negative. -/
def Globals.wf (g : Globals) : Prop :=
  g.spira_heap < U64 ∧ g.base_addr < U64

instance (g : Globals) : Decidable g.wf := by unfold Globals.wf; infer_instance

/-- What `ntuple_addr` does besides computing, in program order. -/
inductive HeapEvent where
  /-- The call `hdat_validate(&sp, ret)` on the pointer, with its result -/
  | validate (p : Nat) (result : Bool)
  /-- The read of `h->id` at the pointer, to print `%.6s` -/
  | read_id (p : Nat)
  /-- The evaluation of `assert(addr >= base_addr)`, with its truth value -/
  | assert_ge (passed : Bool)
  /-- The evaluation of `assert(addr < base_addr + spira_heap_size)` -/
  | assert_lt (passed : Bool)
deriving DecidableEq, Repr

/-- How a call of `ntuple_addr` ends: it returns a pointer, or a failed
`assert` aborts the program. -/
inductive Outcome where
  | ret (p : Nat)
  | abort
deriving DecidableEq, Repr

/-- The function `ntuple_addr`.  `hdat_validate` (from `validate.c`, which is
not among the sources at hand) is a parameter giving its result for a
pointer. -/
def ntuple_addr (g : Globals) (hdat_validate : Nat → Bool) (n : spira_ntuple) :
    Outcome × List HeapEvent :=
  let addr := be64_to_cpu n.addr
  let ret := ptr_add g.spira_heap (u64_sub addr g.base_addr)
  if raw64 g.host_le n.addr = 0 then
    (Outcome.ret NULL, [])
  else
    let printed := [HeapEvent.validate ret (hdat_validate ret), HeapEvent.read_id ret]
    if ¬ (addr ≥ g.base_addr) then
      (Outcome.abort, printed ++ [HeapEvent.assert_ge false])
    else if ¬ (addr < u64_add g.base_addr (to_u64 g.spira_heap_size)) then
      (Outcome.abort, printed ++ [HeapEvent.assert_ge true, HeapEvent.assert_lt false])
    else
      (Outcome.ret (ptr_add g.spira_heap (u64_sub addr g.base_addr)),
        printed ++ [HeapEvent.assert_ge true, HeapEvent.assert_lt true])

/-! ## `hdata/test/hdata_to_dt.c`: `main` -/

/-- The locals `verbose`, `quiet`, `tree_only`, `new_spira` and `opt_count`. -/
structure Opts where
  verbose : Bool
  quiet : Bool
  tree_only : Bool
  new_spira : Bool
  opt_count : Nat
deriving DecidableEq, Repr

/-- Their initial values. -/
def Opts.init : Opts :=
  { verbose := false, quiet := false, tree_only := false, new_spira := false, opt_count := 0 }

/-- The body of `while (argv[++i])` for one argument. -/
def opt_step (o : Opts) (arg : String) : Opts :=
  if arg = "-v" then { o with verbose := true, opt_count := o.opt_count + 1 }
  else if arg = "-q" then { o with quiet := true, opt_count := o.opt_count + 1 }
  else if arg = "-t" then { o with tree_only := true, opt_count := o.opt_count + 1 }
  else if arg = "-s" then { o with new_spira := true, opt_count := o.opt_count + 1 }
  else o

/-- The option loop: `i` runs over `argv[1]`, `argv[2]`, ... up to the
terminating null pointer.  `argv` is the vector without that terminator. -/
def parse_opts (argv : List String) : Opts :=
  (argv.drop 1).foldl opt_step Opts.init

/-- Conversion of a `uint32_t` to `int`, as in `t_count = be32_to_cpu(...)`. -/
def to_int32 (v : Nat) : Int :=
  if v % 2 ^ 32 < 2 ^ 31 then ((v % 2 ^ 32 : Nat) : Int) else ((v % 2 ^ 32 : Nat) : Int) - 2 ^ 32

/-- The constant `MAP_FAILED`, that is `(void *) -1`. -/
def MAP_FAILED : Nat := U64 - 1

/-- What `open(path, O_RDONLY)` and the `read` into `spira` (or `spirah`) give
for a path: the value returned by `read` and the fields of the structure
afterwards that `main` uses. -/
structure SpiraDump where
  /-- The value `read` returns -/
  r : Int
  /-- The field `spira.ntuples.heap.addr`, or `spirah.ntuples.hs_data_area.addr` -/
  base : be64
  /-- The field `spira.ntuples.array_hdr.ecnt` -/
  ecnt : be32
  /-- The array of tuples that starts at `spira.ntuples.sp_subsys` -/
  tuples : Nat → spira_ntuple

/-- What `open(path, O_RDWR)`, `lseek` and `mmap` give for a path, and the
mapped bytes seen as `struct spiras`. -/
structure HeapDump where
  /-- The value `lseek(fd, 0, SEEK_END)` returns -/
  lseek_end : Int
  /-- The value `mmap` returns -/
  mmap : Nat
  /-- The field `spiras->ntuples.array_hdr.ecnt` -/
  ecnt : be32
  /-- The array of tuples that starts at `spiras->ntuples.sp_subsys` -/
  tuples : Nat → spira_ntuple

/-- Everything outside `main` that its run depends on.  A path is `none` when
the `argv` entry is the null pointer. -/
structure World where
  host_le : Bool
  /-- The value of `sizeof(spira.hdr)` and `sizeof(spirah.hdr)` -/
  sizeof_hdr : Nat
  /-- The call `open(path, O_RDONLY)`: `none` when it fails -/
  open_rdonly : Option String → Option SpiraDump
  /-- The call `open(path, O_RDWR)`: `none` when it fails -/
  open_rdwr : Option String → Option HeapDump
  /-- Whether `parse_hdat` returns (it aborts when an assertion of
  `ntuple_addr` fails) -/
  parse_hdat_returns : Bool

/-- The two standard streams `main` closes. -/
inductive Stream where
  | stdout
  | stderr
deriving DecidableEq, Repr

/-- The messages of `err` and `errx`. -/
inductive ErrMsg where
  | usage
  | opening (path : Option String)
  | reading (path : Option String) (r : Int)
  | invalid_base_addr
  | lseek (path : Option String)
  | mmaping
deriving DecidableEq, Repr

/-- The observable steps of `main`, in program order. -/
inductive Event where
  /-- The call `open(path, O_RDONLY)` or, with `rdwr`, `open(path, O_RDWR)` -/
  | open_ (path : Option String) (rdwr : Bool)
  /-- One of the `printf("verbose: ...")` calls -/
  | verbose_printf (what : String)
  /-- The call `fclose` of a standard stream -/
  | fclose (s : Stream)
  /-- The call `fprintf(stderr, "base adr: ...")` -/
  | print_base (base_addr : Nat) (heap : Nat)
  /-- The call `fprintf(stderr, "pr: ... post ...")` for the tuple at an index -/
  | print_tuple (index : Nat) (pr : Nat) (post : Nat)
  /-- The call `parse_hdat(false, 0)` -/
  | parse_hdat
  /-- The call `dump_dt(dt_root, 0, !tree_only)`, with whether `stdout` is
  open at that moment -/
  | dump_dt (stdout_open : Bool) (props : Bool)
  /-- The call `dt_free(dt_root)` -/
  | dt_free
deriving DecidableEq, Repr

/-- How a run of `main` ends. -/
inductive Exit where
  /-- The function `main` returned the status -/
  | returned (status : Int)
  /-- Either `err` or `errx` printed the message and exited with the status -/
  | err (status : Int) (msg : ErrMsg)
  /-- An assertion failed -/
  | abort
deriving DecidableEq, Repr

/-- The state threaded through `main`: which standard streams are open, the
directory memory the tuple loop walks, and the events so far. -/
structure Run where
  stdout_open : Bool
  stderr_open : Bool
  tuples : Nat → spira_ntuple
  events : List Event

/-- Record an event. -/
def Run.emit (s : Run) (e : Event) : Run := { s with events := s.events ++ [e] }

/-- Record an event when the condition holds (`if (verbose) printf(...)`). -/
def Run.emit_if (s : Run) (c : Bool) (e : Event) : Run := if c then s.emit e else s

/-- The call `fclose(stdout)` or `fclose(stderr)`. -/
def Run.fclose (s : Run) (f : Stream) : Run :=
  match f with
  | Stream.stdout => { s with stdout_open := false, events := s.events ++ [Event.fclose f] }
  | Stream.stderr => { s with stderr_open := false, events := s.events ++ [Event.fclose f] }

/-- The value of `fixed` at the `fprintf` of the tuple loop, for the tuple
`*t`. -/
def tuple_fixed (g : Globals) (t : spira_ntuple) : Nat :=
  let offset := u64_sub (be64_to_cpu t.addr) g.base_addr
  let fixed := u64_add g.spira_heap offset
  if raw64 g.host_le t.addr = 0 then 0 else fixed

/-- The body of the tuple loop for the tuple at `index`.  The store
`t->addr = cpu_to_be64(fixed)` is commented out in the source, so the body
stores nothing. -/
def tuple_body (g : Globals) (index : Nat) (s : Run) : Run :=
  let t := s.tuples index
  s.emit (Event.print_tuple index (be64_to_cpu t.addr) (tuple_fixed g t))

/-- The loop `for (; t < end; t++)`: the first argument is the number of
tuples left before `end`, the second the index of `t` counted from
`sp_subsys`. -/
def tuple_loop (g : Globals) : Nat → Nat → Run → Run
  | 0, _, s => s
  | k + 1, index, s => tuple_loop g k (index + 1) (tuple_body g index s)

/-- The fix-up pass of `main`: `end = t + t_count` and the loop.  A `t_count`
that is not positive puts `end` at or before `t`. -/
def fixup_pass (g : Globals) (t_count : Int) (s : Run) : Run :=
  tuple_loop g t_count.toNat 0 s

/-- The second half of `main`, from the choice of the tuple directory (the
branches on `new_spira` that set `t` and `t_count`) to `return 0`.  The
arguments are what the first half has set up: the base address, the two dumps
and the state. -/
def main_decode (w : World) (o : Opts) (base_addr : Nat) (d : SpiraDump) (h : HeapDump)
    (s5 : Run) : Exit × List Event :=
  let spira_heap_size := h.lseek_end
  let spira_heap := h.mmap
  let t := if o.new_spira then h.tuples else d.tuples
  let t_count :=
    if o.new_spira then to_int32 (be32_to_cpu h.ecnt)
    else to_int32 (be32_to_cpu d.ecnt)
  let s6 : Run := { s5 with tuples := t }
  let s7 := if o.quiet then s6.fclose Stream.stderr else s6
  let s8 := s7.fclose Stream.stdout
  let g : Globals := { host_le := w.host_le, spira_heap := spira_heap,
                       spira_heap_size := spira_heap_size, base_addr := base_addr }
  let s9 := s8.emit (Event.print_base base_addr spira_heap)
  let s10 := fixup_pass g t_count s9
  let s11 := s10.emit Event.parse_hdat
  if ¬ w.parse_hdat_returns then (Exit.abort, s11.events)
  else
    let s12 := if ¬ o.quiet then
        s11.emit (Event.dump_dt s11.stdout_open (! o.tree_only)) else s11
    let s13 := s12.emit Event.dt_free
    (Exit.returned 0, s13.events)

/-- The first half of `main`, from the first `open` to the `close` of the
mapped heap dump, followed by `main_decode`.  The two branches on `new_spira`
that load the first dump differ only in the structure read (`spirah` or
`spira`) and are one branch here. -/
def main_run (w : World) (o : Opts) (argv1 argv2 : Option String) : Exit × List Event :=
  let s0 : Run := { stdout_open := true, stderr_open := true,
                    tuples := fun _ => { addr := cpu_to_be64 0 }, events := [] }
  let s1 := s0.emit (Event.open_ argv1 false)
  match w.open_rdonly argv1 with
  | none => (Exit.err 1 (ErrMsg.opening argv1), s1.events)
  | some d =>
    if to_u64 d.r < w.sizeof_hdr then (Exit.err 1 (ErrMsg.reading argv1 d.r), s1.events)
    else
      let s2 := s1.emit_if o.verbose (Event.verbose_printf "read")
      let base_addr := be64_to_cpu d.base
      if base_addr = 0 then (Exit.err 1 ErrMsg.invalid_base_addr, s2.events)
      else
        let s3 := s2.emit_if o.verbose (Event.verbose_printf "map.base_addr")
        let s4 := s3.emit (Event.open_ argv2 true)
        match w.open_rdwr argv2 with
        | none => (Exit.err 1 (ErrMsg.opening argv2), s4.events)
        | some h =>
          if h.lseek_end < 0 then (Exit.err 1 (ErrMsg.lseek argv2), s4.events)
          else if h.mmap = MAP_FAILED then (Exit.err 1 ErrMsg.mmaping, s4.events)
          else
            let s5 := s4.emit_if o.verbose (Event.verbose_printf "mapped")
            main_decode w o base_addr d h s5

/-- The function `main`: the option loop, `argc -= opt_count`,
`argv += opt_count`, the usage check, and the rest with the shifted `argv[1]`
and `argv[2]`. -/
def main (w : World) (argv : List String) : Exit × List Event :=
  let o := parse_opts argv
  let argc : Int := (argv.length : Int) - (o.opt_count : Int)
  let argv_shifted := argv.drop o.opt_count
  if argc ≠ 3 then (Exit.err 1 ErrMsg.usage, [])
  else main_run w o argv_shifted[1]? argv_shifted[2]?

/-! ## `platforms/astbmc/witherspoon.c`: the slot tables -/

/-- The entry types used by the tables (`enum st_type` of the slot-table
header). -/
inductive st_type where
  | st_phb
  | st_pluggable_slot
  | st_builtin_dev
deriving DecidableEq, Repr

/-- The location of an entry, kept as the macro invocation that produces it:
the macro `ST_LOC_DEVFN(dev, fn)` or `ST_LOC_PHB(chip, phb)`. -/
inductive st_loc where
  | devfn (dev : Nat) (fn : Nat)
  | phb (chip_id : Nat) (phb_idx : Nat)
deriving DecidableEq, Repr

/-- One `struct slot_table_entry`; an array of them is a list, its `st_end`
terminator left implicit. -/
inductive slot_table_entry where
  | mk (etype : st_type) (location : st_loc) (name : Option String)
      (children : List slot_table_entry)

/-- The macro `ST_PHB_ENTRY(chip_id, phb_idx, child_table)`. -/
def ST_PHB_ENTRY (chip_id phb_idx : Nat) (children : List slot_table_entry) :
    slot_table_entry :=
  slot_table_entry.mk st_type.st_phb (st_loc.phb chip_id phb_idx) none children

/-- A table holding one pluggable slot. -/
def pluggable (dev : Nat) (name : String) : List slot_table_entry :=
  [slot_table_entry.mk st_type.st_pluggable_slot (st_loc.devfn dev 0) (some name) []]

/-- A built-in device entry. -/
def builtin (dev : Nat) (name : Option String) (children : List slot_table_entry) :
    slot_table_entry :=
  slot_table_entry.mk st_type.st_builtin_dev (st_loc.devfn dev 0) name children

def witherspoon_slot1 : List slot_table_entry := pluggable 0 "SLOT0"
def witherspoon_slot2_shared : List slot_table_entry := pluggable 0 "SLOT1"
def witherspoon_slot3 : List slot_table_entry := pluggable 0 "SLOT2"
def witherspoon_slot4 : List slot_table_entry := pluggable 0 "SLOT3"
def witherspoon_gpu0 : List slot_table_entry := pluggable 0x80 "GPU0"
def witherspoon_gpu1 : List slot_table_entry := pluggable 0xa0 "GPU1"
def witherspoon_gpu2 : List slot_table_entry := pluggable 0xc0 "GPU2"
def witherspoon_gpu3 : List slot_table_entry := pluggable 0x60 "GPU3"
def witherspoon_gpu4 : List slot_table_entry := pluggable 0x80 "GPU4"
def witherspoon_gpu5 : List slot_table_entry := pluggable 0xa0 "GPU5"

def witherspoon_plx0_down : List slot_table_entry :=
  [builtin 0x4a (some "GPU0 down") witherspoon_gpu0,
   builtin 0x4b (some "GPU1 down") witherspoon_gpu1,
   builtin 0x4c (some "GPU2 down") witherspoon_gpu2]

def witherspoon_plx1_down : List slot_table_entry :=
  [builtin 0x44 (some "GPU3 down") witherspoon_gpu3,
   builtin 0x45 (some "GPU4 down") witherspoon_gpu4,
   builtin 0x4d (some "GPU5 down") witherspoon_gpu5]

def witherspoon_plx0_up : List slot_table_entry := [builtin 0x20 none witherspoon_plx0_down]
def witherspoon_plx1_up : List slot_table_entry := [builtin 0x20 none witherspoon_plx1_down]
def witherspoon_plx0_phb : List slot_table_entry := [builtin 0 none witherspoon_plx0_up]
def witherspoon_plx1_phb : List slot_table_entry := [builtin 0 none witherspoon_plx1_up]

/-- The table `witherspoon_phb_table`. -/
def witherspoon_phb_table : List slot_table_entry :=
  [ST_PHB_ENTRY 0 0 witherspoon_slot4,
   ST_PHB_ENTRY 0 3 witherspoon_slot2_shared,
   ST_PHB_ENTRY 0 4 witherspoon_plx0_phb,
   ST_PHB_ENTRY 8 0 witherspoon_slot3,
   ST_PHB_ENTRY 8 3 witherspoon_slot2_shared,
   ST_PHB_ENTRY 8 4 witherspoon_slot1,
   ST_PHB_ENTRY 8 5 witherspoon_plx1_phb]

/-! ## `platforms/astbmc/witherspoon.c`: the probes -/

/-- Modelled from the spec: the children of a device-tree node, an ordered
sequence of nodes, each with a name, a compatible list and children
(`core/device.c` is not among the sources at hand).  The list is kept as a
first-child / next-sibling chain, as the node lists of the firmware are. -/
inductive dt_list where
  | nil
  | cons (name : String) (compatible : List String) (children : dt_list) (next : dt_list)

/-- Modelled from the spec: a device-tree node. -/
structure dt_node where
  name : String
  compatible : List String
  children : dt_list

/-- Modelled from the spec: compatible-string matching, `dt_node_is_compatible`:
whether the string is one of the strings of the node's `compatible`
property. -/
def dt_node_is_compatible (node : dt_node) (compat : String) : Bool :=
  node.compatible.contains compat

/-- Modelled from the spec: lookup by name among a list of nodes and, depth
first, their descendants. -/
def dt_list.find_by_name (name : String) : dt_list → Option dt_node
  | dt_list.nil => none
  | dt_list.cons n c kids next =>
    if n = name then some { name := n, compatible := c, children := kids }
    else
      match dt_list.find_by_name name kids with
      | some m => some m
      | none => dt_list.find_by_name name next

/-- Modelled from the spec: lookup by name, `dt_find_by_name`: the first node
below `root` with the name, `none` for the null pointer. -/
def dt_find_by_name (root : dt_node) (name : String) : Option dt_node :=
  root.children.find_by_name name

/-- Whether some node of the list, or a descendant of one, has the name. -/
def dt_list.has_name (name : String) : dt_list → Prop
  | dt_list.nil => False
  | dt_list.cons n _ kids next => n = name ∨ dt_list.has_name name kids ∨ dt_list.has_name name next

/-- The calls a probe makes besides the two lookups, in program order. -/
inductive ProbeEvent where
  | prerror (msg : String)
  | astbmc_early_init
  | uart_set_console_policy_OPAL
  | slot_table_init (table : List slot_table_entry)

/-- The function `witherspoon_probe`, on the tree `dt_root`. -/
def witherspoon_probe (dt_root : dt_node) : Bool × List ProbeEvent :=
  if ¬ dt_node_is_compatible dt_root "ibm,witherspoon" then (false, [])
  else if ¬ (dt_find_by_name dt_root "ibm,pcie-slots").isSome then (false, [])
  else (true, [ProbeEvent.astbmc_early_init, ProbeEvent.uart_set_console_policy_OPAL])

/-- The function `old_witherspoon_probe`, on the tree `dt_root`. -/
def old_witherspoon_probe (dt_root : dt_node) : Bool × List ProbeEvent :=
  if ¬ dt_node_is_compatible dt_root "ibm,witherspoon" then (false, [])
  else if (dt_find_by_name dt_root "ibm,pcie-slots").isSome then (false, [])
  else (true,
    [ProbeEvent.prerror "Old witherspoon firmware detected. NVLink is not supported\n",
     ProbeEvent.astbmc_early_init, ProbeEvent.uart_set_console_policy_OPAL,
     ProbeEvent.slot_table_init witherspoon_phb_table])

/-! ## `platforms/astbmc/witherspoon.c`: the shared slot -/

/-- The macro `PPC_BIT(bit)`: bit 0 is the most significant of 64
(`0x8000000000000000UL >> bit`). -/
def PPC_BIT (bit : Nat) : Nat := 0x8000000000000000 >>> bit

/-- The two register addresses of the XSCOM register header, which is not
among the sources at hand; they are parameters. -/
structure xscom_p9_regs where
  P9_GPIO_DATA_OUT_ENABLE : Nat
  P9_GPIO_DATA_OUT : Nat

/-- What the shared-slot code does to the outside, in program order. -/
inductive XEvent where
  | xscom_read (chip_id : Nat) (reg : Nat)
  | xscom_write (chip_id : Nat) (reg : Nat) (val : Nat)
  | time_wait_us (us : Nat)
  | prlog (msg : String)
deriving DecidableEq, Repr

/-- The XSCOM register file and the log of accesses: the value of each
register of each chip, and whether a read of it succeeds. -/
structure XState where
  value : Nat → Nat → Nat
  read_ok : Nat → Nat → Bool
  log : List XEvent

/-- The call `xscom_read(chip_id, reg, &val)`: the new content of `val`, which
is left alone when the read fails, and the state. -/
def xscom_read (st : XState) (chip_id reg : Nat) (val : Nat) : Nat × XState :=
  (if st.read_ok chip_id reg then st.value chip_id reg else val,
   { st with log := st.log ++ [XEvent.xscom_read chip_id reg] })

/-- The call `xscom_write(chip_id, reg, val)`: the register takes the value. -/
def xscom_write (st : XState) (chip_id reg : Nat) (val : Nat) : XState :=
  { st with
    value := fun c r => if c = chip_id ∧ r = reg then val else st.value c r,
    log := st.log ++ [XEvent.xscom_write chip_id reg val] }

/-- Record a call that touches no register. -/
def XState.note (st : XState) (e : XEvent) : XState := { st with log := st.log ++ [e] }

/-- The structure `struct proc_chip`: only `id` is used. -/
structure proc_chip where
  id : Nat
deriving DecidableEq, Repr

/-- The function `phb4_activate_shared_slot_witherspoon`.  The parameter
`val0` is the content of the uninitialised local `val`. -/
def phb4_activate_shared_slot_witherspoon (k : xscom_p9_regs) (val0 : Nat) (chip : proc_chip)
    (st : XState) : XState :=
  let (val, st) := xscom_read st chip.id k.P9_GPIO_DATA_OUT_ENABLE val0
  let val := val ||| PPC_BIT 2
  let st := xscom_write st chip.id k.P9_GPIO_DATA_OUT_ENABLE val
  let (val, st) := xscom_read st chip.id k.P9_GPIO_DATA_OUT val
  let val := val ||| PPC_BIT 2
  let st := xscom_write st chip.id k.P9_GPIO_DATA_OUT val
  let st := st.note (XEvent.time_wait_us 100)
  st.note (XEvent.prlog "Shared PCI slot activated\n")

/-- The structure `struct pci_slot`: only `ops.get_presence_state` is used.
The operation is `none` for a null function pointer; otherwise it maps the
content of `*val` before the call to its content after the call (a
`uint8_t`). -/
structure pci_slot where
  get_presence_state : Option (Nat → Nat)

/-- The parts of the system the fixup consults: the chips in the order
`next_chip` walks them, and the functions `phb4_get_opal_id` and
`pci_slot_find`, which are not among the sources at hand. -/
structure System where
  chips : List proc_chip
  phb4_get_opal_id : Nat → Nat → Nat
  pci_slot_find : Nat → Option pci_slot

/-- The iterator `next_chip` (from `core/chip.c`, not among the sources at
hand), as its callers use it: the null pointer gives the first chip, a chip
gives the one after it, and the null pointer comes back at the end.  A chip
pointer is the position of the chip in `chips`. -/
def next_chip (sys : System) (chip : Option Nat) : Option Nat :=
  match chip with
  | none => if 0 < sys.chips.length then some 0 else none
  | some i => if i + 1 < sys.chips.length then some (i + 1) else none

/-- The presence value left in `p` by
`if (slot->ops.get_presence_state) slot->ops.get_presence_state(slot, &p)`. -/
def presence_after (slot : pci_slot) (p : Nat) : Nat :=
  match slot.get_presence_state with
  | none => p
  | some op => op p % 256

/-- The function `phb4_pre_pci_fixup_witherspoon`.  The last case of the match
on the two chips is a chip pointer that is not in the list, which `next_chip`
never returns. -/
def phb4_pre_pci_fixup_witherspoon (k : xscom_p9_regs) (val0 : Nat) (sys : System)
    (st : XState) : XState :=
  let warning := XEvent.prlog "Unexpected number of chips, skipping shared slot detection\n"
  let chip0 := next_chip sys none
  let chip1 := next_chip sys chip0
  match chip1 with
  | none => st.note warning
  | some i1 =>
    if (next_chip sys (some i1)).isSome then st.note warning
    else
      match chip0.bind (fun i => sys.chips[i]?), sys.chips[i1]? with
      | some c0, some c1 =>
        let slot0 := sys.pci_slot_find (sys.phb4_get_opal_id c0.id 3)
        let slot1 := sys.pci_slot_find (sys.phb4_get_opal_id c1.id 3)
        match slot0, slot1 with
        | some s0, some s1 =>
          let p0 := presence_after s0 0
          let p1 := presence_after s1 0
          if p0 = 1 ∧ p1 = 1 then phb4_activate_shared_slot_witherspoon k val0 c1 st
          else st
        | _, _ => st
      | _, _ => st

/-! ## Vocabulary of the properties -/

/-- The event the tuple loop prints for the tuple at an index. -/
def tuple_event (g : Globals) (tuples : Nat → spira_ntuple) (index : Nat) : Event :=
  Event.print_tuple index (be64_to_cpu (tuples index).addr) (tuple_fixed g (tuples index))

/-- Whether an argument is one of the four flags the option loop knows. -/
def is_flag (arg : String) : Bool :=
  decide (arg = "-v") || decide (arg = "-q") || decide (arg = "-t") || decide (arg = "-s")

/-- The number of arguments after `argv[0]` that are not flags. -/
def non_flag_count (argv : List String) : Nat :=
  ((argv.drop 1).filter (fun a => ! is_flag a)).length

/-- Whether an event is a call of `open`. -/
def is_open : Event → Bool
  | Event.open_ _ _ => true
  | _ => false

/-- The reads and writes of XSCOM registers in a log. -/
def xscom_accesses (log : List XEvent) : List XEvent :=
  log.filter (fun e =>
    match e with
    | XEvent.xscom_read _ _ => true
    | XEvent.xscom_write _ _ _ => true
    | _ => false)

/-- The condition under which the fixup acts: the system has exactly the two
chips `c0` and `c1`, a PCI slot is found for PHB index 3 of each, and both
slots report presence 1. -/
def x16_card_detected (sys : System) (c0 c1 : proc_chip) : Prop :=
  sys.chips = [c0, c1] ∧
  ∃ s0 s1, sys.pci_slot_find (sys.phb4_get_opal_id c0.id 3) = some s0 ∧
    sys.pci_slot_find (sys.phb4_get_opal_id c1.id 3) = some s1 ∧
    presence_after s0 0 = 1 ∧ presence_after s1 0 = 1

/-! ## Concrete inputs -/

/-- A heap of 0x1000 bytes mapped at 0x7f0000000000 for the base address
0x80000000, on a little-endian host. -/
def example_globals : Globals :=
  { host_le := true, spira_heap := 0x7f0000000000, spira_heap_size := 0x1000,
    base_addr := 0x80000000 }

/-- A tuple whose address 0x80000010 lies in the heap of `example_globals`. -/
def tuple_inside : spira_ntuple := { addr := cpu_to_be64 0x80000010 }

/-- A tuple whose non-zero address 0x1000 lies below the base address of
`example_globals`. -/
def tuple_below : spira_ntuple := { addr := cpu_to_be64 0x1000 }

/-- A tuple whose non-zero address 0x80001000 is the first one past the heap
of `example_globals`. -/
def tuple_past_end : spira_ntuple := { addr := cpu_to_be64 0x80001000 }

/-- The absent tuple: its address field is zero. -/
def tuple_absent : spira_ntuple := { addr := cpu_to_be64 0 }

/-- A tuple whose non-zero address is `base_addr - spira_heap` modulo `2 ^ 64`
for `example_globals`. -/
def tuple_wrapping : spira_ntuple := { addr := cpu_to_be64 0xFFFF810080000000 }

/-- A validator that accepts every record. -/
def validate_all : Nat → Bool := fun _ => true

/-- A SPIRA dump whose heap tuple gives the base address 0x80000000 and whose
directory has two entries, the tuple at 0x80000010 and an absent one. -/
def example_spira : SpiraDump :=
  { r := 1024, base := cpu_to_be64 0x80000000, ecnt := cpu_to_be32 2,
    tuples := fun i => if i = 0 then tuple_inside else tuple_absent }

/-- A heap dump of 0x1000 bytes that `mmap` places at 0x7f0000000000. -/
def example_heap : HeapDump :=
  { lseek_end := 0x1000, mmap := 0x7f0000000000, ecnt := cpu_to_be32 0,
    tuples := fun _ => tuple_absent }

/-- A little-endian host on which the files `spira.bin` and `heap.bin` can be
opened and `parse_hdat` returns. -/
def example_world : World :=
  { host_le := true, sizeof_hdr := 32,
    open_rdonly := fun path => if path = some "spira.bin" then some example_spira else none,
    open_rdwr := fun path => if path = some "heap.bin" then some example_heap else none,
    parse_hdat_returns := true }

/-- A tree of new firmware: the root is compatible with `ibm,witherspoon` and
a node `ibm,pcie-slots` sits below `xscom@0`. -/
def tree_with_slots : dt_node :=
  { name := "", compatible := ["ibm,witherspoon", "ibm,power9"],
    children :=
      dt_list.cons "xscom@0" []
        (dt_list.cons "ibm,pcie-slots" ["ibm,pcie-slots"] dt_list.nil dt_list.nil)
        dt_list.nil }

/-- A tree of old firmware: the root is compatible with `ibm,witherspoon` and
no node is named `ibm,pcie-slots`. -/
def tree_without_slots : dt_node :=
  { name := "", compatible := ["ibm,witherspoon", "ibm,power9"],
    children := dt_list.cons "xscom@0" [] dt_list.nil dt_list.nil }

/-- The register addresses of the POWER9 GPIO block. -/
def example_regs : xscom_p9_regs :=
  { P9_GPIO_DATA_OUT_ENABLE := 0xb0054, P9_GPIO_DATA_OUT := 0xb0051 }

/-- A register file in which every register holds its own address and can be
read, with an empty log. -/
def example_xstate : XState :=
  { value := fun _ r => r, read_ok := fun _ _ => true, log := [] }

/-- A slot whose presence operation reports 1. -/
def slot_present : pci_slot := { get_presence_state := some (fun _ => 1) }

/-- A slot without a presence operation. -/
def slot_no_op : pci_slot := { get_presence_state := none }

/-- A system of two chips, 0 and 8, with a slot reporting presence 1 on PHB
index 3 of each. -/
def example_system : System :=
  { chips := [{ id := 0 }, { id := 8 }],
    phb4_get_opal_id := fun chip_id index => chip_id * 6 + index,
    pci_slot_find := fun id => if id = 3 ∨ id = 51 then some slot_present else none }

/-! # Properties -/

/-! ## Facts about the arithmetic -/

theorem be64_to_cpu_lt (x : be64) : be64_to_cpu x < U64 := by
  have h0 := x.b0.isLt
  have h1 := x.b1.isLt
  have h2 := x.b2.isLt
  have h3 := x.b3.isLt
  have h4 := x.b4.isLt
  have h5 := x.b5.isLt
  have h6 := x.b6.isLt
  have h7 := x.b7.isLt
  unfold be64_to_cpu U64
  omega

theorem raw64_eq_zero_iff (le : Bool) (x : be64) : raw64 le x = 0 ↔ be64_to_cpu x = 0 := by
  cases le
  · simp [raw64]
  · simp only [raw64, be64_to_cpu, if_true]
    omega

theorem to_u64_lt (s : Int) : to_u64 s < U64 := by
  unfold to_u64 U64
  omega

theorem to_u64_of_nonneg (s : Int) (h0 : 0 ≤ s) (h1 : s < 2 ^ 63) : (to_u64 s : Int) = s := by
  unfold to_u64 U64
  omega

theorem u64_sub_of_le (a b : Nat) (ha : a < U64) (hab : b ≤ a) : u64_sub a b = a - b := by
  unfold u64_sub U64 at *
  omega

/-! ## `ntuple_addr` -/

/-- The outcome of `ntuple_addr` for a tuple with a non-zero address, by
cases on the two assertions. -/
theorem ntuple_addr_outcome (g : Globals) (hv : Nat → Bool) (n : spira_ntuple)
    (hnz : be64_to_cpu n.addr ≠ 0) :
    (ntuple_addr g hv n).1 =
      if g.base_addr ≤ be64_to_cpu n.addr ∧
          be64_to_cpu n.addr < u64_add g.base_addr (to_u64 g.spira_heap_size) then
        Outcome.ret (ptr_add g.spira_heap (u64_sub (be64_to_cpu n.addr) g.base_addr))
      else Outcome.abort := by
  have hraw : ¬ raw64 g.host_le n.addr = 0 := fun h => hnz ((raw64_eq_zero_iff _ _).1 h)
  unfold ntuple_addr
  simp only [hraw, if_false]
  by_cases h1 : g.base_addr ≤ be64_to_cpu n.addr
  · by_cases h2 : be64_to_cpu n.addr < u64_add g.base_addr (to_u64 g.spira_heap_size)
    · simp [h1, h2]
    · simp [h1, h2]
  · simp [h1]

/-- The two assertions pass together exactly when the address lies in
`[base_addr, base_addr + size)` and that interval does not wrap. -/
theorem asserts_pass_iff (g : Globals) (addr : Nat) (hg : g.wf) (ha : addr < U64) :
    (g.base_addr ≤ addr ∧ addr < u64_add g.base_addr (to_u64 g.spira_heap_size)) ↔
      (g.base_addr ≤ addr ∧ addr - g.base_addr < to_u64 g.spira_heap_size ∧
        g.base_addr + to_u64 g.spira_heap_size < U64) := by
  have hs := to_u64_lt g.spira_heap_size
  obtain ⟨_, hb⟩ := hg
  generalize to_u64 g.spira_heap_size = sz at *
  unfold u64_add U64 at *
  omega

/-- C1: for a tuple with a non-zero address, whatever the base address and the
heap size, `ntuple_addr` returns the location `p` exactly when both range
assertions pass; then `p` is the heap start plus `offset = addr - base_addr`
with `addr` the big-endian value of the address field, `0 <= offset < size`,
and `base_addr + size` does not wrap (when it wraps the call does not
return). -/
theorem ntuple_addr_returns_translated (g : Globals) (hv : Nat → Bool) (n : spira_ntuple)
    (p : Nat) (hg : g.wf) (hnz : be64_to_cpu n.addr ≠ 0) :
    (ntuple_addr g hv n).1 = Outcome.ret p ↔
      (g.base_addr ≤ be64_to_cpu n.addr ∧
        be64_to_cpu n.addr - g.base_addr < to_u64 g.spira_heap_size ∧
        g.base_addr + to_u64 g.spira_heap_size < U64 ∧
        p = ptr_add g.spira_heap (be64_to_cpu n.addr - g.base_addr)) := by
  have ha := be64_to_cpu_lt n.addr
  rw [ntuple_addr_outcome g hv n hnz]
  have hiff := asserts_pass_iff g (be64_to_cpu n.addr) hg ha
  by_cases hc : g.base_addr ≤ be64_to_cpu n.addr ∧
      be64_to_cpu n.addr < u64_add g.base_addr (to_u64 g.spira_heap_size)
  · have hr := hiff.1 hc
    rw [if_pos hc, u64_sub_of_le _ _ ha hc.1]
    constructor
    · intro h
      exact ⟨hr.1, hr.2.1, hr.2.2, (Outcome.ret.inj h).symm⟩
    · intro h
      rw [h.2.2.2]
  · rw [if_neg hc]
    constructor
    · intro h
      cases h
    · intro h
      exact absurd (hiff.2 ⟨h.1, h.2.1, h.2.2.1⟩) hc

/-- Witness for C1: the tuple at 0x80000010 is returned at heap offset
0x10. -/
theorem ntuple_addr_returns_translated_witness :
    (ntuple_addr example_globals validate_all tuple_inside).1 = Outcome.ret 0x7f0000000010 :=
  (ntuple_addr_returns_translated example_globals validate_all tuple_inside 0x7f0000000010
    (by decide) (by decide)).2 (by decide)

/-- C2, as stated, fails: the tuple at 0x80001000 has a non-zero address
outside `[base_addr, base_addr + size)` and `ntuple_addr` ends in a failed
assertion, which aborts the program, instead of returning an error to its
caller. -/
theorem ntuple_addr_out_of_range_aborts_here :
    be64_to_cpu tuple_past_end.addr ≠ 0 ∧
    ¬ (example_globals.base_addr ≤ be64_to_cpu tuple_past_end.addr ∧
        be64_to_cpu tuple_past_end.addr <
          example_globals.base_addr + to_u64 example_globals.spira_heap_size) ∧
    (ntuple_addr example_globals validate_all tuple_past_end).1 = Outcome.abort := by
  decide

/-- C2, amended: for every tuple whose non-zero address lies outside
`[base_addr, base_addr + size)`, `ntuple_addr` does not return to its caller:
one of its two range assertions fails and the program aborts. -/
theorem ntuple_addr_out_of_range_aborts (g : Globals) (hv : Nat → Bool) (n : spira_ntuple)
    (hg : g.wf) (hnz : be64_to_cpu n.addr ≠ 0)
    (hout : ¬ (g.base_addr ≤ be64_to_cpu n.addr ∧
        be64_to_cpu n.addr < g.base_addr + to_u64 g.spira_heap_size)) :
    (ntuple_addr g hv n).1 = Outcome.abort := by
  have ha := be64_to_cpu_lt n.addr
  rw [ntuple_addr_outcome g hv n hnz]
  have hiff := asserts_pass_iff g (be64_to_cpu n.addr) hg ha
  by_cases hc : g.base_addr ≤ be64_to_cpu n.addr ∧
      be64_to_cpu n.addr < u64_add g.base_addr (to_u64 g.spira_heap_size)
  · exfalso
    have hr := hiff.1 hc
    apply hout
    refine ⟨hr.1, ?_⟩
    omega
  · rw [if_neg hc]

/-- Witness for the amended C2: the tuple at 0x1000, below the base address,
aborts. -/
theorem ntuple_addr_out_of_range_aborts_witness :
    (ntuple_addr example_globals validate_all tuple_below).1 = Outcome.abort :=
  ntuple_addr_out_of_range_aborts example_globals validate_all tuple_below
    (by decide) (by decide) (by decide)

/-- The value of `fixed` for a tuple with a non-zero address field. -/
theorem tuple_fixed_of_ne_zero (g : Globals) (t : spira_ntuple)
    (hnz : be64_to_cpu t.addr ≠ 0) :
    tuple_fixed g t = u64_add g.spira_heap (u64_sub (be64_to_cpu t.addr) g.base_addr) := by
  have hraw : ¬ raw64 g.host_le t.addr = 0 := fun h => hnz ((raw64_eq_zero_iff _ _).1 h)
  simp [tuple_fixed, hraw]

/-- C3, as stated, fails in its second half: `tuple_wrapping` has a non-zero
address field and the tuple loop still computes the fixed address 0 for it. -/
theorem tuple_fixed_zero_for_nonzero_address :
    be64_to_cpu tuple_wrapping.addr ≠ 0 ∧ tuple_fixed example_globals tuple_wrapping = 0 := by
  decide

/-- C3, amended: for every tuple whose address field is zero, whatever the
base address and the heap size, `ntuple_addr` returns the null pointer with no
heap read, no call of `hdat_validate` and neither assertion evaluated; the
tuple loop computes the fixed address 0 for every tuple whose address field is
zero, and for a tuple with a non-zero address only when that address equals
`base_addr - spira_heap` modulo `2 ^ 64`. -/
theorem zero_address_is_absent (g : Globals) (hv : Nat → Bool) (t : spira_ntuple)
    (hg : g.wf) :
    (be64_to_cpu t.addr = 0 → ntuple_addr g hv t = (Outcome.ret NULL, [])) ∧
    (tuple_fixed g t = 0 ↔
      (be64_to_cpu t.addr = 0 ∨ be64_to_cpu t.addr = u64_sub g.base_addr g.spira_heap)) := by
  constructor
  · intro hz
    have hraw : raw64 g.host_le t.addr = 0 := (raw64_eq_zero_iff _ _).2 hz
    simp [ntuple_addr, hraw]
  · by_cases hz : be64_to_cpu t.addr = 0
    · have hraw : raw64 g.host_le t.addr = 0 := (raw64_eq_zero_iff _ _).2 hz
      simp [tuple_fixed, hraw, hz]
    · rw [tuple_fixed_of_ne_zero g t hz]
      have ha := be64_to_cpu_lt t.addr
      obtain ⟨hh, hb⟩ := hg
      unfold u64_add u64_sub U64 at *
      omega

/-- Witness for the amended C3, at the absent tuple. -/
theorem zero_address_is_absent_witness :
    ntuple_addr example_globals validate_all tuple_absent = (Outcome.ret NULL, []) ∧
    tuple_fixed example_globals tuple_absent = 0 :=
  ⟨(zero_address_is_absent example_globals validate_all tuple_absent (by decide)).1 (by decide),
   (zero_address_is_absent example_globals validate_all tuple_absent (by decide)).2.2
     (Or.inl (by decide))⟩

/-- C8 fails on the code: for the tuple at 0x1000, below the base address
0x80000000, `ntuple_addr` passes the location 0x7eff80001000 to
`hdat_validate` and reads the record id there, outside the mapped heap, before
the first range assertion is evaluated (and fails). -/
theorem ntuple_addr_reads_before_range_checks :
    be64_to_cpu tuple_below.addr ≠ 0 ∧
    ntuple_addr example_globals validate_all tuple_below =
      (Outcome.abort,
        [HeapEvent.validate 0x7eff80001000 true, HeapEvent.read_id 0x7eff80001000,
         HeapEvent.assert_ge false]) ∧
    ¬ (example_globals.spira_heap ≤ 0x7eff80001000 ∧
        ((0x7eff80001000 : Nat) : Int) <
          example_globals.spira_heap + example_globals.spira_heap_size) := by
  decide

/-- For every tuple with a non-zero address, the call of `hdat_validate` and
the read of the record id come first in the trace of `ntuple_addr`, before
any assertion. -/
theorem ntuple_addr_trace_starts_with_read (g : Globals) (hv : Nat → Bool) (n : spira_ntuple)
    (hnz : be64_to_cpu n.addr ≠ 0) :
    ∃ rest,
      (ntuple_addr g hv n).2 =
        HeapEvent.validate (ptr_add g.spira_heap (u64_sub (be64_to_cpu n.addr) g.base_addr))
            (hv (ptr_add g.spira_heap (u64_sub (be64_to_cpu n.addr) g.base_addr))) ::
          HeapEvent.read_id (ptr_add g.spira_heap (u64_sub (be64_to_cpu n.addr) g.base_addr)) ::
          rest ∧
      (rest = [HeapEvent.assert_ge false] ∨
        rest = [HeapEvent.assert_ge true, HeapEvent.assert_lt false] ∨
        rest = [HeapEvent.assert_ge true, HeapEvent.assert_lt true]) := by
  have hraw : ¬ raw64 g.host_le n.addr = 0 := fun h => hnz ((raw64_eq_zero_iff _ _).1 h)
  unfold ntuple_addr
  simp only [hraw, if_false]
  by_cases h1 : g.base_addr ≤ be64_to_cpu n.addr
  · by_cases h2 : be64_to_cpu n.addr < u64_add g.base_addr (to_u64 g.spira_heap_size)
    · simp [h1, h2]
    · simp [h1, h2]
  · simp [h1]

/-! ## `main` -/

theorem tuple_loop_spec (g : Globals) (k : Nat) :
    ∀ (index : Nat) (s : Run),
      tuple_loop g k index s =
        { s with events := s.events ++
            (List.range k).map (fun j => tuple_event g s.tuples (index + j)) } := by
  induction k with
  | zero => intro index s; simp [tuple_loop]
  | succ k ih =>
    intro index s
    rw [tuple_loop, ih, List.range_succ_eq_map]
    simp [tuple_body, Run.emit, tuple_event, Function.comp_def, Nat.add_assoc, Nat.add_comm 1]

/-- C4: the fix-up pass stores nothing: whatever the tuple count and the tuple
array, after the loop the directory memory is what it was before, the standard
streams are as before, and the pass has done exactly one `fprintf` per tuple,
for the tuples `0, 1, ..., t_count - 1` counted from `sp_subsys`, in ascending
order (none when `t_count` is not positive). -/
theorem fixup_pass_leaves_blob_unchanged (g : Globals) (t_count : Int) (s : Run) :
    (fixup_pass g t_count s).tuples = s.tuples ∧
    (fixup_pass g t_count s).stdout_open = s.stdout_open ∧
    (fixup_pass g t_count s).stderr_open = s.stderr_open ∧
    (fixup_pass g t_count s).events =
      s.events ++ (List.range t_count.toNat).map (fun i => tuple_event g s.tuples i) := by
  unfold fixup_pass
  rw [tuple_loop_spec]
  simp

/-- C5 fails on the code: for `hdata spira.bin heap.bin`, run without `-q` on
files that load, `main` closes `stdout` before the tuple loop, so `dump_dt` is
called with `stdout` closed. -/
theorem main_dumps_with_stdout_closed :
    (parse_opts ["hdata", "spira.bin", "heap.bin"]).quiet = false ∧
    main example_world ["hdata", "spira.bin", "heap.bin"] =
      (Exit.returned 0,
        [Event.open_ (some "spira.bin") false,
         Event.open_ (some "heap.bin") true,
         Event.fclose Stream.stdout,
         Event.print_base 0x80000000 0x7f0000000000,
         Event.print_tuple 0 0x80000010 0x7f0000000010,
         Event.print_tuple 1 0 0,
         Event.parse_hdat,
         Event.dump_dt false true,
         Event.dt_free]) := by
  decide

theorem emit_events (s : Run) (e : Event) : (s.emit e).events = s.events ++ [e] := rfl

theorem emit_if_events (s : Run) (c : Bool) (e : Event) :
    (s.emit_if c e).events = s.events ++ (if c then [e] else []) := by
  cases c <;> simp [Run.emit_if, Run.emit]

theorem fclose_events (s : Run) (f : Stream) :
    (s.fclose f).events = s.events ++ [Event.fclose f] := by
  cases f <;> rfl

theorem fixup_pass_events (g : Globals) (t_count : Int) (s : Run) :
    (fixup_pass g t_count s).events =
      s.events ++ (List.range t_count.toNat).map (fun i => tuple_event g s.tuples i) := by
  unfold fixup_pass
  rw [tuple_loop_spec]
  simp

theorem fixup_pass_stdout_open (g : Globals) (t_count : Int) (s : Run) :
    (fixup_pass g t_count s).stdout_open = s.stdout_open := by
  unfold fixup_pass
  rw [tuple_loop_spec]

theorem filter_is_open_tuple_events (g : Globals) (tuples : Nat → spira_ntuple) (l : List Nat) :
    (l.map (fun i => tuple_event g tuples i)).filter is_open = [] := by
  induction l with
  | nil => rfl
  | cons i l ih => simp [tuple_event, is_open]

/-- The events of `main_decode`: those already recorded, then events among
which there is no `open` and no `dump_dt` with `stdout` open. -/
theorem main_decode_events (w : World) (o : Opts) (base_addr : Nat) (d : SpiraDump)
    (h : HeapDump) (s5 : Run) :
    ∃ tail, (main_decode w o base_addr d h s5).2 = s5.events ++ tail ∧
      tail.filter is_open = [] ∧
      ∀ so props, Event.dump_dt so props ∈ tail → so = false := by
  obtain ⟨verbose, quiet, tree_only, new_spira, opt_count⟩ := o
  unfold main_decode
  cases quiet <;> cases hp : w.parse_hdat_returns <;>
    simp [emit_events, fclose_events, fixup_pass_events, fixup_pass_stdout_open, Run.emit,
      Run.fclose, is_open, filter_is_open_tuple_events, List.filter_append, tuple_event]
  all_goals
    intro a ha
    rcases ha with ⟨i, _, rfl⟩ | ha
    · rfl
    · first
        | (subst ha; rfl)
        | (rcases ha with rfl | rfl <;> rfl)
        | (rcases ha with rfl | rfl | rfl <;> rfl)

/-- The calls of `open` in a run of `main` past the usage check: `argv[1]` is
opened first, read-only, and `argv[2]` is the only other file opened,
read-write. -/
theorem main_run_opens (w : World) (o : Opts) (a1 a2 : Option String) :
    (main_run w o a1 a2).2.head? = some (Event.open_ a1 false) ∧
    ((main_run w o a1 a2).2.filter is_open = [Event.open_ a1 false] ∨
      (main_run w o a1 a2).2.filter is_open = [Event.open_ a1 false, Event.open_ a2 true]) := by
  obtain ⟨verbose, quiet, tree_only, new_spira, opt_count⟩ := o
  unfold main_run
  cases h1 : w.open_rdonly a1 with
  | none => simp [emit_events, is_open]
  | some d =>
    cases h2 : w.open_rdwr a2 with
    | none =>
      cases verbose <;>
        (simp only []; split_ifs <;> simp [emit_events, emit_if_events, is_open])
    | some h =>
      simp only []
      split_ifs
      · simp [emit_events, emit_if_events, is_open]
      · cases verbose <;> simp [emit_events, emit_if_events, is_open]
      · cases verbose <;> simp [emit_events, emit_if_events, is_open]
      · cases verbose <;> simp [emit_events, emit_if_events, is_open]
      · obtain ⟨tail, ht, hopen, _⟩ := main_decode_events w
          { verbose := verbose, quiet := quiet, tree_only := tree_only, new_spira := new_spira,
            opt_count := opt_count } (be64_to_cpu d.base) d h
          (((({ stdout_open := true, stderr_open := true,
                tuples := fun _ => { addr := cpu_to_be64 0 }, events := [] } : Run).emit
              (Event.open_ a1 false)).emit_if verbose (Event.verbose_printf "read")).emit_if
              verbose (Event.verbose_printf "map.base_addr") |>.emit (Event.open_ a2 true)
            |>.emit_if verbose (Event.verbose_printf "mapped"))
        rw [ht]
        cases verbose <;>
          simp [emit_events, emit_if_events, is_open, List.filter_append, hopen]

theorem main_run_events_ne_nil (w : World) (o : Opts) (a1 a2 : Option String) :
    (main_run w o a1 a2).2 ≠ [] := by
  intro h
  have := (main_run_opens w o a1 a2).1
  rw [h] at this
  simp at this

theorem opt_step_opt_count (o : Opts) (a : String) :
    (opt_step o a).opt_count = o.opt_count + (if is_flag a then 1 else 0) := by
  unfold opt_step is_flag
  by_cases hv : a = "-v"
  · simp [hv]
  · by_cases hq : a = "-q"
    · simp [hq]
    · by_cases ht : a = "-t"
      · simp [ht]
      · by_cases hs : a = "-s"
        · simp [hs]
        · simp [hv, hq, ht, hs]

theorem foldl_opt_count (l : List String) :
    ∀ o : Opts, (l.foldl opt_step o).opt_count = o.opt_count + (l.filter is_flag).length := by
  induction l with
  | nil => intro o; simp
  | cons a l ih =>
    intro o
    rw [List.foldl_cons, ih, opt_step_opt_count]
    by_cases h : is_flag a = true
    · simp [h, List.filter_cons]
      omega
    · simp [h, List.filter_cons]

theorem length_filter_flags (l : List String) :
    (l.filter is_flag).length + (l.filter (fun a => ! is_flag a)).length = l.length := by
  induction l with
  | nil => rfl
  | cons a l ih =>
    by_cases h : is_flag a = true
    · simp [h, List.filter_cons]
      omega
    · simp [h, List.filter_cons]
      omega

/-- The flags counted by the option loop and the arguments that are not flags
make up `argv[1]`, `argv[2]`, ... -/
theorem opt_count_add_non_flag_count (argv : List String) :
    (parse_opts argv).opt_count + non_flag_count argv = (argv.drop 1).length := by
  unfold parse_opts non_flag_count
  rw [foldl_opt_count]
  simp only [Opts.init, Nat.zero_add]
  exact length_filter_flags _

theorem parse_opts_flags_first (prog : String) (flags rest : List String)
    (hflags : ∀ f ∈ flags, is_flag f = true) (hrest : ∀ a ∈ rest, is_flag a = false) :
    (parse_opts (prog :: (flags ++ rest))).opt_count = flags.length := by
  unfold parse_opts
  rw [foldl_opt_count]
  simp only [Opts.init, Nat.zero_add, List.drop_one, List.tail_cons, List.filter_append]
  rw [List.filter_eq_self.2 hflags, List.filter_eq_nil_iff.2 (by simpa using hrest)]
  simp

theorem main_of_three (w : World) (argv : List String)
    (h3 : (argv.length : Int) - ((parse_opts argv).opt_count : Int) = 3) :
    main w argv =
      main_run w (parse_opts argv) argv[(parse_opts argv).opt_count + 1]?
        argv[(parse_opts argv).opt_count + 2]? := by
  unfold main
  simp only [h3, ne_eq, not_true_eq_false, if_false, List.getElem?_drop]

theorem argc_eq_three_iff (argv : List String) (hne : argv ≠ []) :
    (argv.length : Int) - ((parse_opts argv).opt_count : Int) = 3 ↔ non_flag_count argv = 2 := by
  have h := opt_count_add_non_flag_count argv
  have hl : (argv.drop 1).length + 1 = argv.length := by
    cases argv with
    | nil => exact absurd rfl hne
    | cons a l => simp
  omega

/-- C10, as stated, fails: `hdata spira.bin heap.bin -q` has exactly two
arguments that are not flags, and `main` opens the second of them,
`heap.bin`, as the SPIRA dump; the first is never opened. -/
theorem main_flag_after_paths_opens_wrong_file :
    non_flag_count ["hdata", "spira.bin", "heap.bin", "-q"] = 2 ∧
    main example_world ["hdata", "spira.bin", "heap.bin", "-q"] =
      (Exit.err 1 (ErrMsg.opening (some "heap.bin")),
        [Event.open_ (some "heap.bin") false]) := by
  decide

/-- C10, amended: the option loop counts the flags `-v`, `-q`, `-t`, `-s`
wherever they stand; `main` exits with status 1 and the usage message exactly
when the number of arguments that are not flags is not two; otherwise it
opens `argv[opt_count + 1]` as the SPIRA or SPIRAH dump and
`argv[opt_count + 2]` as the heap dump, which are the first and the second
argument that is not a flag when all flags stand before them, the order the
usage message gives. -/
theorem main_argument_handling (w : World) (argv : List String) (hne : argv ≠ []) :
    (main w argv = (Exit.err 1 ErrMsg.usage, []) ↔ non_flag_count argv ≠ 2) ∧
    (non_flag_count argv = 2 →
      main w argv =
        main_run w (parse_opts argv) argv[(parse_opts argv).opt_count + 1]?
          argv[(parse_opts argv).opt_count + 2]?) ∧
    (∀ (prog : String) (flags : List String) (a b : String),
      argv = prog :: (flags ++ [a, b]) → (∀ f ∈ flags, is_flag f = true) →
      is_flag a = false → is_flag b = false →
      (main w argv).2.head? = some (Event.open_ (some a) false) ∧
      ((main w argv).2.filter is_open = [Event.open_ (some a) false] ∨
        (main w argv).2.filter is_open =
          [Event.open_ (some a) false, Event.open_ (some b) true])) := by
  have hiff := argc_eq_three_iff argv hne
  refine ⟨?_, ?_, ?_⟩
  · by_cases h3 : (argv.length : Int) - ((parse_opts argv).opt_count : Int) = 3
    · rw [main_of_three w argv h3]
      constructor
      · intro h
        exact absurd (congrArg Prod.snd h) (main_run_events_ne_nil _ _ _ _)
      · intro h
        exact absurd (hiff.1 h3) h
    · constructor
      · intro _ h2
        exact h3 (hiff.2 h2)
      · intro _
        unfold main
        simp only [ne_eq, h3, not_false_eq_true, if_true]
  · intro h2
    exact main_of_three w argv (hiff.2 h2)
  · intro prog flags a b hargv hflags ha hb
    have hcount : (parse_opts argv).opt_count = flags.length := by
      rw [hargv]
      apply parse_opts_flags_first prog flags [a, b] hflags
      intro x hx
      simp only [List.mem_cons, List.mem_singleton, List.not_mem_nil, or_false] at hx
      rcases hx with rfl | rfl
      · exact ha
      · exact hb
    have h3 : (argv.length : Int) - ((parse_opts argv).opt_count : Int) = 3 := by
      rw [hcount, hargv]
      simp only [List.length_cons, List.length_append, List.length_nil]
      push_cast
      omega
    have h1 : argv[(parse_opts argv).opt_count + 1]? = some a := by
      rw [hcount, hargv, List.getElem?_cons_succ,
        List.getElem?_append_right (Nat.le_refl _)]
      simp
    have h2 : argv[(parse_opts argv).opt_count + 2]? = some b := by
      rw [hcount, hargv]
      show (prog :: (flags ++ [a, b]))[(flags.length + 1) + 1]? = some b
      rw [List.getElem?_cons_succ, List.getElem?_append_right (Nat.le_succ _)]
      simp
    rw [main_of_three w argv h3, h1, h2]
    exact main_run_opens w (parse_opts argv) (some a) (some b)

/-- Witness for the amended C10: `hdata -s -v spira.bin heap.bin` opens
`spira.bin` first. -/
theorem main_argument_handling_witness :
    (main example_world ["hdata", "-s", "-v", "spira.bin", "heap.bin"]).2.head? =
      some (Event.open_ (some "spira.bin") false) :=
  ((main_argument_handling example_world ["hdata", "-s", "-v", "spira.bin", "heap.bin"]
    (by decide)).2.2 "hdata" ["-s", "-v"] "spira.bin" "heap.bin" rfl (by decide) (by decide)
    (by decide)).1

/-- In every run of `main`, whenever `dump_dt` is called, `stdout` has been
closed before. -/
theorem main_run_dump_dt_stdout_closed (w : World) (o : Opts) (a1 a2 : Option String)
    (so props : Bool) (hmem : Event.dump_dt so props ∈ (main_run w o a1 a2).2) : so = false := by
  obtain ⟨verbose, quiet, tree_only, new_spira, opt_count⟩ := o
  unfold main_run at hmem
  cases h1 : w.open_rdonly a1 with
  | none => simp [h1, emit_events] at hmem
  | some d =>
    cases h2 : w.open_rdwr a2 with
    | none =>
      simp only [h1, h2] at hmem
      split_ifs at hmem <;> cases verbose <;> simp [emit_events, emit_if_events] at hmem
    | some h =>
      simp only [h1, h2] at hmem
      split_ifs at hmem
      · simp [emit_events, emit_if_events] at hmem
      · cases verbose <;> simp [emit_events, emit_if_events] at hmem
      · cases verbose <;> simp [emit_events, emit_if_events] at hmem
      · cases verbose <;> simp [emit_events, emit_if_events] at hmem
      · obtain ⟨tail, ht, _, hdump⟩ := main_decode_events w
          { verbose := verbose, quiet := quiet, tree_only := tree_only, new_spira := new_spira,
            opt_count := opt_count } (be64_to_cpu d.base) d h
          (((({ stdout_open := true, stderr_open := true,
                tuples := fun _ => { addr := cpu_to_be64 0 }, events := [] } : Run).emit
              (Event.open_ a1 false)).emit_if verbose (Event.verbose_printf "read")).emit_if
              verbose (Event.verbose_printf "map.base_addr") |>.emit (Event.open_ a2 true)
            |>.emit_if verbose (Event.verbose_printf "mapped"))
        rw [ht] at hmem
        rcases List.mem_append.1 hmem with hpre | htail
        · cases verbose <;> simp [emit_events, emit_if_events] at hpre
        · exact hdump so props htail

theorem main_dump_dt_stdout_closed (w : World) (argv : List String) (so props : Bool)
    (hmem : Event.dump_dt so props ∈ (main w argv).2) : so = false := by
  unfold main at hmem
  simp only [] at hmem
  split_ifs at hmem
  · simp at hmem
  · exact main_run_dump_dt_stdout_closed _ _ _ _ so props hmem

/-! ## The probes -/

theorem find_by_name_isSome_iff (name : String) (l : dt_list) :
    (dt_list.find_by_name name l).isSome = true ↔ dt_list.has_name name l := by
  induction l with
  | nil => simp [dt_list.find_by_name, dt_list.has_name]
  | cons n c kids next ihk ihn =>
    unfold dt_list.find_by_name dt_list.has_name
    by_cases hn : n = name
    · simp [hn]
    · simp only [hn, if_false, false_or]
      rw [← ihk, ← ihn]
      cases hk : dt_list.find_by_name name kids <;> simp

/-- C6: for every device tree the two probes never both return true; when the
root is compatible with `ibm,witherspoon`, `witherspoon_probe` returns true
exactly when a node named `ibm,pcie-slots` exists below the root and
`old_witherspoon_probe` exactly when none exists, so exactly one of them
returns true; when the root is not compatible both return false; and
`slot_table_init(witherspoon_phb_table)` is called exactly when
`old_witherspoon_probe` returns true, and never by `witherspoon_probe`. -/
theorem witherspoon_probes_exclusive (dt_root : dt_node) :
    ¬ ((witherspoon_probe dt_root).1 = true ∧ (old_witherspoon_probe dt_root).1 = true) ∧
    (dt_node_is_compatible dt_root "ibm,witherspoon" = true →
      ((witherspoon_probe dt_root).1 = true ↔
        dt_list.has_name "ibm,pcie-slots" dt_root.children) ∧
      ((old_witherspoon_probe dt_root).1 = true ↔
        ¬ dt_list.has_name "ibm,pcie-slots" dt_root.children) ∧
      (witherspoon_probe dt_root).1 = ! (old_witherspoon_probe dt_root).1) ∧
    (dt_node_is_compatible dt_root "ibm,witherspoon" = false →
      (witherspoon_probe dt_root).1 = false ∧ (old_witherspoon_probe dt_root).1 = false) ∧
    (ProbeEvent.slot_table_init witherspoon_phb_table ∈ (old_witherspoon_probe dt_root).2 ↔
      (old_witherspoon_probe dt_root).1 = true) ∧
    (∀ table, ProbeEvent.slot_table_init table ∉ (witherspoon_probe dt_root).2) := by
  have hfind := find_by_name_isSome_iff "ibm,pcie-slots" dt_root.children
  unfold witherspoon_probe old_witherspoon_probe dt_find_by_name
  cases hc : dt_node_is_compatible dt_root "ibm,witherspoon" <;>
    cases hf : (dt_list.find_by_name "ibm,pcie-slots" dt_root.children).isSome <;>
    simp [hf] at hfind <;> simp [hfind]

/-- Witness for C6: the probe of new firmware accepts the tree with slots and
the probe of old firmware accepts the tree without. -/
theorem witherspoon_probes_exclusive_witness :
    (witherspoon_probe tree_with_slots).1 = true ∧
    (old_witherspoon_probe tree_without_slots).1 = true :=
  ⟨((witherspoon_probes_exclusive tree_with_slots).2.1 (by decide)).1.2
      (by simp [tree_with_slots, dt_list.has_name]),
   ((witherspoon_probes_exclusive tree_without_slots).2.1 (by decide)).2.1.2
      (by simp [tree_without_slots, dt_list.has_name])⟩

/-! ## The shared slot -/

theorem PPC_BIT_2 : PPC_BIT 2 = 0x2000000000000000 := by decide

/-- The register values after the activation, when both reads succeed. -/
theorem activate_value (k : xscom_p9_regs) (val0 : Nat) (chip : proc_chip) (st : XState)
    (hen : st.read_ok chip.id k.P9_GPIO_DATA_OUT_ENABLE = true)
    (hout : st.read_ok chip.id k.P9_GPIO_DATA_OUT = true) :
    (phb4_activate_shared_slot_witherspoon k val0 chip st).value =
      fun c r =>
        if c = chip.id ∧ (r = k.P9_GPIO_DATA_OUT_ENABLE ∨ r = k.P9_GPIO_DATA_OUT) then
          st.value c r ||| PPC_BIT 2
        else st.value c r := by
  funext c r
  simp only [phb4_activate_shared_slot_witherspoon, xscom_read, xscom_write, XState.note, hen,
    hout, if_true]
  by_cases hc : c = chip.id
  · subst hc
    by_cases h1 : r = k.P9_GPIO_DATA_OUT
    · subst h1
      by_cases h2 : k.P9_GPIO_DATA_OUT = k.P9_GPIO_DATA_OUT_ENABLE
      · simp [h2, Nat.lor_assoc]
      · simp [h2]
    · by_cases h2 : r = k.P9_GPIO_DATA_OUT_ENABLE
      · subst h2
        have h3 : ¬ k.P9_GPIO_DATA_OUT_ENABLE = k.P9_GPIO_DATA_OUT := h1
        simp [h3]
      · simp [h1, h2]
  · simp [hc]

theorem activate_read_ok (k : xscom_p9_regs) (val0 : Nat) (chip : proc_chip) (st : XState) :
    (phb4_activate_shared_slot_witherspoon k val0 chip st).read_ok = st.read_ok := rfl

/-- The log after the activation, when both reads succeed. -/
theorem activate_log (k : xscom_p9_regs) (val0 : Nat) (chip : proc_chip) (st : XState)
    (hen : st.read_ok chip.id k.P9_GPIO_DATA_OUT_ENABLE = true)
    (hout : st.read_ok chip.id k.P9_GPIO_DATA_OUT = true) :
    (phb4_activate_shared_slot_witherspoon k val0 chip st).log =
      st.log ++
        [XEvent.xscom_read chip.id k.P9_GPIO_DATA_OUT_ENABLE,
         XEvent.xscom_write chip.id k.P9_GPIO_DATA_OUT_ENABLE
           (st.value chip.id k.P9_GPIO_DATA_OUT_ENABLE ||| PPC_BIT 2),
         XEvent.xscom_read chip.id k.P9_GPIO_DATA_OUT,
         XEvent.xscom_write chip.id k.P9_GPIO_DATA_OUT
           (st.value chip.id k.P9_GPIO_DATA_OUT ||| PPC_BIT 2),
         XEvent.time_wait_us 100,
         XEvent.prlog "Shared PCI slot activated\n"] := by
  simp only [phb4_activate_shared_slot_witherspoon, xscom_read, xscom_write, XState.note, hen,
    hout, if_true]
  by_cases h2 : k.P9_GPIO_DATA_OUT = k.P9_GPIO_DATA_OUT_ENABLE
  · simp [h2, Nat.lor_assoc]
  · simp [h2]

theorem testBit_lor_PPC_BIT_2 (v i : Nat) :
    (v ||| PPC_BIT 2).testBit i = (v.testBit i || decide (i = 61)) := by
  have h : PPC_BIT 2 = 2 ^ 61 := by decide
  rw [h, Nat.testBit_lor, Nat.testBit_two_pow]
  by_cases hi : i = 61
  · simp [hi]
  · have hi' : ¬ 61 = i := fun e => hi e.symm
    simp [hi, hi']

/-- C9: for every chip and every prior register state in which the two reads
succeed, `phb4_activate_shared_slot_witherspoon` leaves
`P9_GPIO_DATA_OUT_ENABLE` and `P9_GPIO_DATA_OUT` of that chip equal to their
prior values bitwise-or `PPC_BIT(2)`, which is 0x2000000000000000: that bit
(bit 61 counted from the least significant) is set and every other bit of
both registers is unchanged; no other register and no other chip changes; the
accesses are read and write of the enable register, then read and write of the
data register, then the wait of 100 microseconds and the log line; and a second
application leaves the register state of the first. -/
theorem activate_shared_slot_sets_bit (k : xscom_p9_regs) (val0 val1 : Nat) (chip : proc_chip)
    (st : XState)
    (hen : st.read_ok chip.id k.P9_GPIO_DATA_OUT_ENABLE = true)
    (hout : st.read_ok chip.id k.P9_GPIO_DATA_OUT = true) :
    (phb4_activate_shared_slot_witherspoon k val0 chip st).value chip.id
        k.P9_GPIO_DATA_OUT_ENABLE =
      st.value chip.id k.P9_GPIO_DATA_OUT_ENABLE ||| PPC_BIT 2 ∧
    (phb4_activate_shared_slot_witherspoon k val0 chip st).value chip.id k.P9_GPIO_DATA_OUT =
      st.value chip.id k.P9_GPIO_DATA_OUT ||| PPC_BIT 2 ∧
    PPC_BIT 2 = 0x2000000000000000 ∧
    (∀ r, r = k.P9_GPIO_DATA_OUT_ENABLE ∨ r = k.P9_GPIO_DATA_OUT →
      ((phb4_activate_shared_slot_witherspoon k val0 chip st).value chip.id r).testBit 61 = true ∧
      ∀ i, i ≠ 61 →
        ((phb4_activate_shared_slot_witherspoon k val0 chip st).value chip.id r).testBit i =
          (st.value chip.id r).testBit i) ∧
    (∀ c r, ¬ (c = chip.id ∧ (r = k.P9_GPIO_DATA_OUT_ENABLE ∨ r = k.P9_GPIO_DATA_OUT)) →
      (phb4_activate_shared_slot_witherspoon k val0 chip st).value c r = st.value c r) ∧
    (phb4_activate_shared_slot_witherspoon k val0 chip st).read_ok = st.read_ok ∧
    (phb4_activate_shared_slot_witherspoon k val0 chip st).log =
      st.log ++
        [XEvent.xscom_read chip.id k.P9_GPIO_DATA_OUT_ENABLE,
         XEvent.xscom_write chip.id k.P9_GPIO_DATA_OUT_ENABLE
           (st.value chip.id k.P9_GPIO_DATA_OUT_ENABLE ||| PPC_BIT 2),
         XEvent.xscom_read chip.id k.P9_GPIO_DATA_OUT,
         XEvent.xscom_write chip.id k.P9_GPIO_DATA_OUT
           (st.value chip.id k.P9_GPIO_DATA_OUT ||| PPC_BIT 2),
         XEvent.time_wait_us 100,
         XEvent.prlog "Shared PCI slot activated\n"] ∧
    (phb4_activate_shared_slot_witherspoon k val1 chip
        (phb4_activate_shared_slot_witherspoon k val0 chip st)).value =
      (phb4_activate_shared_slot_witherspoon k val0 chip st).value ∧
    (phb4_activate_shared_slot_witherspoon k val1 chip
        (phb4_activate_shared_slot_witherspoon k val0 chip st)).read_ok =
      (phb4_activate_shared_slot_witherspoon k val0 chip st).read_ok := by
  have hv := activate_value k val0 chip st hen hout
  have hv2 := activate_value k val1 chip (phb4_activate_shared_slot_witherspoon k val0 chip st)
    (by rw [activate_read_ok]; exact hen) (by rw [activate_read_ok]; exact hout)
  refine ⟨?_, ?_, PPC_BIT_2, ?_, ?_, rfl, activate_log k val0 chip st hen hout, ?_, rfl⟩
  · rw [hv]; simp
  · rw [hv]; simp
  · intro r hr
    have hval : (phb4_activate_shared_slot_witherspoon k val0 chip st).value chip.id r =
        st.value chip.id r ||| PPC_BIT 2 := by
      rw [hv]; simp [hr]
    rw [hval]
    constructor
    · rw [testBit_lor_PPC_BIT_2]; simp
    · intro i hi
      rw [testBit_lor_PPC_BIT_2]; simp [hi]
  · intro c r hcr
    rw [hv]; simp only [hcr, if_false]
  · rw [hv2, hv]
    funext c r
    by_cases hcr : c = chip.id ∧ (r = k.P9_GPIO_DATA_OUT_ENABLE ∨ r = k.P9_GPIO_DATA_OUT)
    · simp only [hcr, and_self, if_true, Nat.lor_assoc, Nat.or_self]
    · simp only [hcr, if_false]

/-- Witness for C9: on chip 8 of the example register file the enable register
0xb0054 ends as 0x20000000000b0054. -/
theorem activate_shared_slot_sets_bit_witness :
    (phb4_activate_shared_slot_witherspoon example_regs 0 { id := 8 } example_xstate).value 8
        0xb0054 = 0x20000000000b0054 :=
  (activate_shared_slot_sets_bit example_regs 0 0 { id := 8 } example_xstate rfl rfl).1

/-- The shape of the log after the activation, whether or not the reads
succeed: two reads and two writes, all on the given chip. -/
theorem activate_log_shape (k : xscom_p9_regs) (val0 : Nat) (chip : proc_chip) (st : XState) :
    ∃ v1 v2,
      (phb4_activate_shared_slot_witherspoon k val0 chip st).log =
        st.log ++
          [XEvent.xscom_read chip.id k.P9_GPIO_DATA_OUT_ENABLE,
           XEvent.xscom_write chip.id k.P9_GPIO_DATA_OUT_ENABLE v1,
           XEvent.xscom_read chip.id k.P9_GPIO_DATA_OUT,
           XEvent.xscom_write chip.id k.P9_GPIO_DATA_OUT v2,
           XEvent.time_wait_us 100,
           XEvent.prlog "Shared PCI slot activated\n"] := by
  simp only [phb4_activate_shared_slot_witherspoon, xscom_read, xscom_write, XState.note,
    List.append_assoc, List.singleton_append]
  exact ⟨_, _, rfl⟩

theorem fixup_of_detected (k : xscom_p9_regs) (val0 : Nat) (sys : System) (st : XState)
    (c0 c1 : proc_chip) (h : x16_card_detected sys c0 c1) :
    phb4_pre_pci_fixup_witherspoon k val0 sys st =
      phb4_activate_shared_slot_witherspoon k val0 c1 st := by
  obtain ⟨hchips, s0, s1, h0, h1, hp0, hp1⟩ := h
  simp [phb4_pre_pci_fixup_witherspoon, next_chip, hchips, h0, h1, hp0, hp1]

theorem fixup_of_not_detected (k : xscom_p9_regs) (val0 : Nat) (sys : System) (st : XState)
    (h : ¬ ∃ c0 c1, x16_card_detected sys c0 c1) :
    phb4_pre_pci_fixup_witherspoon k val0 sys st = st ∨
    phb4_pre_pci_fixup_witherspoon k val0 sys st =
      st.note (XEvent.prlog "Unexpected number of chips, skipping shared slot detection\n") := by
  rcases hch : sys.chips with _ | ⟨c0, _ | ⟨c1, _ | ⟨c2, rest⟩⟩⟩
  · right
    simp [phb4_pre_pci_fixup_witherspoon, next_chip, hch]
  · right
    simp [phb4_pre_pci_fixup_witherspoon, next_chip, hch]
  · left
    cases h0 : sys.pci_slot_find (sys.phb4_get_opal_id c0.id 3) with
    | none => simp [phb4_pre_pci_fixup_witherspoon, next_chip, hch, h0]
    | some s0 =>
      cases h1 : sys.pci_slot_find (sys.phb4_get_opal_id c1.id 3) with
      | none => simp [phb4_pre_pci_fixup_witherspoon, next_chip, hch, h0, h1]
      | some s1 =>
        have hp : ¬ (presence_after s0 0 = 1 ∧ presence_after s1 0 = 1) := by
          intro hp
          exact h ⟨c0, c1, hch, s0, s1, h0, h1, hp.1, hp.2⟩
        simp [phb4_pre_pci_fixup_witherspoon, next_chip, hch, h0, h1, hp]
  · right
    simp [phb4_pre_pci_fixup_witherspoon, next_chip, hch]

/-- C7: `phb4_pre_pci_fixup_witherspoon` activates the shared slot exactly
when the system has exactly two chips, a PCI slot is found for PHB index 3 of
both, and both slots report presence 1, a slot without a `get_presence_state`
operation counting as presence 0.  When it activates, it is the one call of
`phb4_activate_shared_slot_witherspoon`, on the second chip: its register
accesses are two reads and two writes, all on that chip.  In every other case,
the presence combinations (0,0), (1,0) and (0,1) among them, no register is
accessed and no register changes. -/
theorem fixup_activates_iff_x16 (k : xscom_p9_regs) (val0 : Nat) (sys : System) (st : XState) :
    (∀ c0 c1, x16_card_detected sys c0 c1 →
      phb4_pre_pci_fixup_witherspoon k val0 sys st =
        phb4_activate_shared_slot_witherspoon k val0 c1 st ∧
      ∃ v1 v2,
        xscom_accesses (phb4_pre_pci_fixup_witherspoon k val0 sys st).log =
          xscom_accesses st.log ++
            [XEvent.xscom_read c1.id k.P9_GPIO_DATA_OUT_ENABLE,
             XEvent.xscom_write c1.id k.P9_GPIO_DATA_OUT_ENABLE v1,
             XEvent.xscom_read c1.id k.P9_GPIO_DATA_OUT,
             XEvent.xscom_write c1.id k.P9_GPIO_DATA_OUT v2]) ∧
    ((¬ ∃ c0 c1, x16_card_detected sys c0 c1) →
      (phb4_pre_pci_fixup_witherspoon k val0 sys st).value = st.value ∧
      xscom_accesses (phb4_pre_pci_fixup_witherspoon k val0 sys st).log =
        xscom_accesses st.log) ∧
    (∀ slot : pci_slot, slot.get_presence_state = none → presence_after slot 0 = 0) := by
  refine ⟨?_, ?_, ?_⟩
  · intro c0 c1 h
    refine ⟨fixup_of_detected k val0 sys st c0 c1 h, ?_⟩
    obtain ⟨v1, v2, hlog⟩ := activate_log_shape k val0 c1 st
    refine ⟨v1, v2, ?_⟩
    rw [fixup_of_detected k val0 sys st c0 c1 h, hlog]
    simp [xscom_accesses, List.filter_append]
  · intro h
    rcases fixup_of_not_detected k val0 sys st h with he | he
    · rw [he]
      exact ⟨rfl, rfl⟩
    · rw [he]
      refine ⟨rfl, ?_⟩
      simp [xscom_accesses, XState.note, List.filter_append]
  · intro slot h
    simp [presence_after, h]

/-- Witness for C7: in the example system, with presence 1 on both chips, the
fixup is the activation on chip 8. -/
theorem fixup_activates_iff_x16_witness :
    phb4_pre_pci_fixup_witherspoon example_regs 0 example_system example_xstate =
      phb4_activate_shared_slot_witherspoon example_regs 0 { id := 8 } example_xstate :=
  ((fixup_activates_iff_x16 example_regs 0 example_system example_xstate).1 { id := 0 }
    { id := 8 }
    ⟨rfl, slot_present, slot_present, rfl, rfl, by decide, by decide⟩).1

end Skiboot
